import Mathlib

/-
Verification of the qba-db storage engine (a single-table B+tree key-value
store written in Rust) against its natural-language specification.

Shallow embedding notes:
- The repository contains several co-existing snapshots of the same
  subsystem (spec §2).  The canonical engine embedded here is
  src/pager.rs + src/leaf_node.rs + src/internal_node.rs + src/cursor.rs
  with the statement glue of src/db.rs.  src/tree.rs and src/lib.rs are
  stale duplicates: db.rs's `use crate::tree::LeafNode` names the stale
  copy, but only leaf_node::LeafNode matches the page type stored by
  pager.rs, and the claims cite src/leaf_node.rs as the insert
  implementation, so `execute_insert_statement` is wired to
  leaf_node::LeafNode::insert here.  Likewise close_db's
  `pager.get_page(..)` (a method absent from pager.rs) is read as
  `get_page_leaf`, the only leaf-page fetch the pager offers.
- Machine integers: u32 fields become Nat (values kept < 2^32 by the
  byte codec, which truncates mod 2^32 exactly as the memcpy does).
  Byte buffers become `List Nat` of byte values; native byte order is
  modelled as little-endian (the source runs on x86-64).
- Rust `String` fields become their UTF-8 byte lists.  `from_utf8(..)
  .unwrap()` cannot fail on the buffers produced by serialize_row
  (valid UTF-8 plus NUL padding stays valid UTF-8), so the decoder is
  modelled as the identity on bytes.
- Fallible calls return Option/Except; `unwrap()` of an Err and every
  panic (including Vec index out of bounds) becomes `none` (or a
  dedicated constructor where a claim needs to tell them apart).
- Rust error strings are modelled by inductive constructors; the
  concrete message text is recorded in comments next to each one.
-/

set_option maxRecDepth 4000

/-! Constants from src/db.rs, src/pager.rs, src/leaf_node.rs and
src/internal_node.rs.  PAGE_SIZE is 150 in src/pager.rs. -/

def PAGE_SIZE : Nat := 150

def TABLE_MAX_PAGES : Nat := 100

def MAX_STRING_SIZE : Nat := 64

def ID_SIZE : Nat := 4

def USERNAME_SIZE : Nat := MAX_STRING_SIZE

def EMAIL_SIZE : Nat := MAX_STRING_SIZE

def ID_OFFSET : Nat := 0

def USERNAME_OFFSET : Nat := ID_OFFSET + ID_SIZE

def EMAIL_OFFSET : Nat := USERNAME_OFFSET + USERNAME_SIZE

def ROW_SIZE : Nat := ID_SIZE + USERNAME_SIZE + EMAIL_SIZE

def NODE_TYPE_SIZE : Nat := 1

def NODE_TYPE_OFFSET : Nat := 0

def IS_ROOT_SIZE : Nat := 1

def IS_ROOT_OFFSET : Nat := NODE_TYPE_SIZE

def PARENT_POINTER_SIZE : Nat := 4

def PARENT_POINTER_OFFSET : Nat := IS_ROOT_OFFSET + IS_ROOT_SIZE

def COMMON_NODE_HEADER_SIZE : Nat := NODE_TYPE_SIZE + IS_ROOT_SIZE + PARENT_POINTER_SIZE

def LEAF_NODE_NUM_CELLS_SIZE : Nat := 4

def LEAF_NODE_NUM_CELLS_OFFSET : Nat := COMMON_NODE_HEADER_SIZE

def LEAF_NODE_NEXT_LEAF_SIZE : Nat := 4

def LEAF_NODE_NEXT_LEAF_OFFSET : Nat := LEAF_NODE_NUM_CELLS_OFFSET + LEAF_NODE_NUM_CELLS_SIZE

def LEAF_NODE_HEADER_SIZE : Nat :=
  COMMON_NODE_HEADER_SIZE + LEAF_NODE_NUM_CELLS_SIZE + LEAF_NODE_NEXT_LEAF_SIZE

def LEAF_NODE_KEY_SIZE : Nat := 4

def LEAF_NODE_KEY_OFFSET : Nat := 0

def LEAF_NODE_VALUE_SIZE : Nat := ROW_SIZE

def LEAF_NODE_VALUE_OFFSET : Nat := LEAF_NODE_KEY_OFFSET + LEAF_NODE_KEY_SIZE

def LEAF_NODE_CELL_SIZE : Nat := LEAF_NODE_KEY_SIZE + LEAF_NODE_VALUE_SIZE

def LEAF_NODE_SPACE_FOR_CELLS : Nat := PAGE_SIZE - LEAF_NODE_HEADER_SIZE

def LEAF_NODE_MAX_CELLS : Nat := LEAF_NODE_SPACE_FOR_CELLS / LEAF_NODE_CELL_SIZE

def LEAF_NODE_RIGHT_SPLIT_COUNT : Nat := (LEAF_NODE_MAX_CELLS + 1) / 2

def LEAF_NODE_LEFT_SPLIT_COUNT : Nat :=
  (LEAF_NODE_MAX_CELLS + 1) - LEAF_NODE_RIGHT_SPLIT_COUNT

def INTERNAL_NODE_NUM_KEYS_SIZE : Nat := 4

def INTERNAL_NODE_NUM_KEYS_OFFSET : Nat := COMMON_NODE_HEADER_SIZE

def INTERNAL_NODE_RIGHT_CHILD_SIZE : Nat := 4

def INTERNAL_NODE_RIGHT_CHILD_OFFSET : Nat :=
  INTERNAL_NODE_NUM_KEYS_OFFSET + INTERNAL_NODE_NUM_KEYS_SIZE

def INTERNAL_NODE_HEADER_SIZE : Nat :=
  COMMON_NODE_HEADER_SIZE + INTERNAL_NODE_NUM_KEYS_SIZE + INTERNAL_NODE_RIGHT_CHILD_SIZE

def INTERNAL_NODE_KEY_SIZE : Nat := 4

def INTERNAL_NODE_CHILD_SIZE : Nat := 4

def INTERNAL_NODE_CELL_SIZE : Nat := INTERNAL_NODE_KEY_SIZE + INTERNAL_NODE_CHILD_SIZE

def INTERNAL_NODE_SPACE_FOR_CELLS : Nat := PAGE_SIZE - INTERNAL_NODE_HEADER_SIZE

def INTERNAL_NODE_MAX_CELLS : Nat :=
  INTERNAL_NODE_SPACE_FOR_CELLS / INTERNAL_NODE_CELL_SIZE

/-! Raw byte-buffer primitives.  `listWrite` is the embedding of
`std::ptr::copy_nonoverlapping` / `write_bytes` into a byte buffer at a
given offset; `listRead` of `std::slice::from_raw_parts` at an offset. -/

def listWrite (dst : List Nat) (off : Nat) (src : List Nat) : List Nat :=
  dst.take off ++ src ++ dst.drop (off + src.length)

def listRead (src : List Nat) (off len : Nat) : List Nat :=
  (src.drop off).take len

/-- Little-endian byte decomposition of a u32 (`to_ne_bytes` on x86-64). -/
def u32_to_bytes (n : Nat) : List Nat :=
  [n % 256, n / 256 % 256, n / 65536 % 256, n / 16777216 % 256]

/-- Little-endian byte recomposition of a u32 (`from_ne_bytes` on x86-64). -/
def u32_from_bytes (l : List Nat) : Nat :=
  l.foldr (fun b acc => b % 256 + 256 * acc) 0

/-! Row codec, src/db.rs.  A Row's id is a u32; username and email are the
UTF-8 bytes of the Rust Strings. -/

structure Row where
  id : Nat
  username : List Nat
  email : List Nat
deriving DecidableEq, Repr

/-- Errors returned by unsafe_serialize_row; the source strings are
"Username is too long!" and "Email is too long!". -/
inductive RowError where
  | usernameTooLong
  | emailTooLong
deriving DecidableEq, Repr

/-- Embedding of unsafe_serialize_row (src/db.rs lines 366-414): writes the
id bytes, then for each string field first checks the length bound, then
zero-fills the 64-byte slot and copies the string bytes.  The returned list
is the destination buffer after the writes that happened before any error
(the Rust function mutates through the pointer before failing). -/
def serialize_row (source : Row) (destination : List Nat) : List Nat × Option RowError :=
  let d1 := listWrite destination ID_OFFSET (u32_to_bytes source.id)
  if source.username.length > MAX_STRING_SIZE then (d1, some RowError.usernameTooLong)
  else
    let d2 := listWrite d1 USERNAME_OFFSET (List.replicate USERNAME_SIZE 0)
    let d3 := listWrite d2 USERNAME_OFFSET source.username
    if source.email.length > MAX_STRING_SIZE then (d3, some RowError.emailTooLong)
    else
      let d4 := listWrite d3 EMAIL_OFFSET (List.replicate EMAIL_SIZE 0)
      let d5 := listWrite d4 EMAIL_OFFSET source.email
      (d5, none)

/-- Embedding of unsafe_deserialize_row (src/db.rs lines 416-435): reads the
id and the full 64-byte username and email slots.  The source calls
`std::str::from_utf8(..).unwrap().to_string()` on each whole slot, so NO
trailing-zero padding is stripped: the decoded strings keep all 64 bytes. -/
def deserialize_row (source : List Nat) : Row :=
  { id := u32_from_bytes (listRead source ID_OFFSET ID_SIZE)
    username := listRead source USERNAME_OFFSET USERNAME_SIZE
    email := listRead source EMAIL_OFFSET EMAIL_SIZE }

/-! Leaf nodes, src/leaf_node.rs. -/

structure LeafNode where
  is_root : Bool
  parent_ptr : Nat
  num_cells : Nat
  next_leaf : Nat
  cells : List Nat
deriving DecidableEq, Repr

def LeafNode.new : LeafNode :=
  { is_root := false
    parent_ptr := 0
    next_leaf := 0
    num_cells := 0
    cells := List.replicate LEAF_NODE_SPACE_FOR_CELLS 0 }

/-- Embedding of LeafNode::get_cell read through the raw pointer: the whole
cell (key + value bytes) at index `cell_num`. -/
def LeafNode.get_cell_bytes (n : LeafNode) (cell_num : Nat) : List Nat :=
  listRead n.cells (cell_num * LEAF_NODE_CELL_SIZE) LEAF_NODE_CELL_SIZE

/-- Writes a whole cell at index `cell_num` (the destination side of the
cell-to-cell `copy_nonoverlapping` calls). -/
def LeafNode.set_cell_bytes (n : LeafNode) (cell_num : Nat) (bytes : List Nat) : LeafNode :=
  { n with cells := listWrite n.cells (cell_num * LEAF_NODE_CELL_SIZE) bytes }

/-- Embedding of LeafNode::get_cell_key: reads LEAF_NODE_NUM_CELLS_SIZE
(= 4) bytes at the key offset of cell `cell_num`. -/
def LeafNode.get_cell_key (n : LeafNode) (cell_num : Nat) : Nat :=
  u32_from_bytes
    (listRead n.cells (cell_num * LEAF_NODE_CELL_SIZE + LEAF_NODE_KEY_OFFSET)
      LEAF_NODE_NUM_CELLS_SIZE)

/-- Embedding of LeafNode::get_cell_value as a read of the 132 value bytes
of cell `cell_num` (the source returns the raw pointer; reads through that
pointer see these bytes). -/
def LeafNode.get_cell_value (n : LeafNode) (cell_num : Nat) : List Nat :=
  listRead n.cells (cell_num * LEAF_NODE_CELL_SIZE + LEAF_NODE_VALUE_OFFSET)
    LEAF_NODE_VALUE_SIZE

/-- Writing the 4 key bytes of cell `cell_num` (the key-saving
`copy_nonoverlapping` in insert / split_and_insert). -/
def LeafNode.write_cell_key (n : LeafNode) (cell_num key : Nat) : LeafNode :=
  { n with
    cells := listWrite n.cells (cell_num * LEAF_NODE_CELL_SIZE + LEAF_NODE_KEY_OFFSET)
      (u32_to_bytes key) }

/-- serialize_row targeted at the value bytes of cell `cell_num`, returning
the updated node together with serialize_row's error (if any): the Rust
code hands `get_cell_value`'s pointer straight to serialize_row. -/
def LeafNode.serialize_row_into_cell (n : LeafNode) (cell_num : Nat) (row : Row) :
    LeafNode × Option RowError :=
  let region := n.get_cell_value cell_num
  let res := serialize_row row region
  ({ n with
      cells := listWrite n.cells (cell_num * LEAF_NODE_CELL_SIZE + LEAF_NODE_VALUE_OFFSET)
        res.1 },
    res.2)

/-- Embedding of LeafNode::get_max_key: key of cell `num_cells - 1`
(Nat truncated subtraction stands in for the u32 arithmetic; the engine
never calls this on an empty leaf). -/
def LeafNode.get_max_key (n : LeafNode) : Nat :=
  n.get_cell_key (n.num_cells - 1)

/-- Embedding of LeafNode::deserialize_node (struct -> page bytes), used
when a page is flushed.  The writes land at offsets 0, 1, 2, 6, 10, 14 of a
zeroed PAGE_SIZE buffer, which for a 136-byte cells array is exactly this
concatenation. -/
def LeafNode.serialize_page (n : LeafNode) : List Nat :=
  [1, if n.is_root then 1 else 0] ++ u32_to_bytes n.parent_ptr ++
    u32_to_bytes n.num_cells ++ u32_to_bytes n.next_leaf ++ n.cells

/-- Embedding of LeafNode::serialize_node (page bytes -> struct), used when
a page is materialized from disk.  `none` models the panics on a non-leaf
node-type byte or an invalid is_root byte. -/
def LeafNode.parse_page (source : List Nat) : Option LeafNode :=
  match listRead source NODE_TYPE_OFFSET NODE_TYPE_SIZE with
  | [1] =>
    match listRead source IS_ROOT_OFFSET IS_ROOT_SIZE with
    | [0] => some
      { is_root := false
        parent_ptr := u32_from_bytes (listRead source PARENT_POINTER_OFFSET PARENT_POINTER_SIZE)
        num_cells := u32_from_bytes (listRead source LEAF_NODE_NUM_CELLS_OFFSET LEAF_NODE_NUM_CELLS_SIZE)
        next_leaf := u32_from_bytes (listRead source LEAF_NODE_NEXT_LEAF_OFFSET LEAF_NODE_NEXT_LEAF_SIZE)
        cells := listRead source LEAF_NODE_HEADER_SIZE LEAF_NODE_SPACE_FOR_CELLS }
    | [1] => some
      { is_root := true
        parent_ptr := u32_from_bytes (listRead source PARENT_POINTER_OFFSET PARENT_POINTER_SIZE)
        num_cells := u32_from_bytes (listRead source LEAF_NODE_NUM_CELLS_OFFSET LEAF_NODE_NUM_CELLS_SIZE)
        next_leaf := u32_from_bytes (listRead source LEAF_NODE_NEXT_LEAF_OFFSET LEAF_NODE_NEXT_LEAF_SIZE)
        cells := listRead source LEAF_NODE_HEADER_SIZE LEAF_NODE_SPACE_FOR_CELLS }
    | _ => none
  | _ => none

/-! Internal nodes, src/internal_node.rs.  Cells are (key, child page
number) pairs, as in the Rust `[(u32, u32); INTERNAL_NODE_MAX_CELLS]`. -/

structure InternalNode where
  is_root : Bool
  parent_ptr : Nat
  num_keys : Nat
  right_child : Nat
  cells : List (Nat × Nat)
deriving DecidableEq, Repr

def InternalNode.new : InternalNode :=
  { is_root := false
    parent_ptr := 0
    num_keys := 0
    right_child := 0
    cells := List.replicate INTERNAL_NODE_MAX_CELLS (0, 0) }

/-! Pager, src/pager.rs.  A page slot is the source's pair
`(Option<Box<InternalNode>>, Option<Box<LeafNode>>)`; in this Prod the
first component is the internal node and the second the leaf.  The Pager
also carries the current on-disk contents (`file`), standing in for the
owned file descriptor. -/

inductive NodeType where
  | leaf
  | internal
deriving DecidableEq, Repr

structure Pager where
  file : List Nat
  file_length : Nat
  num_pages : Nat
  pages : List (Option InternalNode × Option LeafNode)
deriving DecidableEq, Repr

/-- Outcome of fetching a typed page reference.  `limitErr` is the
Result::Err "Hit page limit for table"; `missingErr` the Result::Err
"Error fetching page! ... node does not exist at page_num"; `indexPanic`
the panic raised by `self.pages[page_num]` when the Vec index is out of
bounds. -/
inductive PageResult (α : Type) where
  | ok (page : α)
  | limitErr
  | missingErr
  | indexPanic
deriving DecidableEq, Repr

/-- Error of Pager::open_file for a file whose length is not a multiple of
PAGE_SIZE; the source string is "Db file length is not a valid number of
pages. Corrupt file". -/
inductive OpenError where
  | corruptFile
deriving DecidableEq, Repr

/-- Embedding of Pager::open_file (src/pager.rs lines 27-89).  The input is
the state of the file system at the path: `none` when the file does not
exist, `some bytes` its contents otherwise.  A created file is empty, with
metadata length 0. -/
def Pager.open_file (file : Option (List Nat)) : Except OpenError Pager :=
  match file with
  | some contents =>
    let pages := List.replicate TABLE_MAX_PAGES
      ((none, none) : Option InternalNode × Option LeafNode)
    let file_length := contents.length
    if file_length % PAGE_SIZE ≠ 0 then
      Except.error OpenError.corruptFile
    else if file_length = 0 then
      let root_node := { LeafNode.new with is_root := true }
      Except.ok
        { file := contents
          file_length := file_length
          num_pages := 1
          pages := pages.set 0 (none, some root_node) }
    else
      Except.ok
        { file := contents
          file_length := file_length
          num_pages := file_length / PAGE_SIZE
          pages := pages }
  | none =>
    let pages := List.replicate TABLE_MAX_PAGES
      ((none, none) : Option InternalNode × Option LeafNode)
    let root_node := { LeafNode.new with is_root := true }
    Except.ok
      { file := []
        file_length := 0
        num_pages := 1
        pages := pages.set 0 (none, some root_node) }

/-- Embedding of Pager::get_page_node_type; `none` models the panic
"Trying to get node type for non-existent page!" (and the Vec index
panic). -/
def Pager.get_page_node_type (p : Pager) (page_num : Nat) : Option NodeType :=
  match p.pages.get? page_num with
  | none => none
  | some slot =>
    if slot.1.isSome then some NodeType.internal
    else if slot.2.isSome then some NodeType.leaf
    else none

/-- Embedding of Pager::get_page_leaf (src/pager.rs lines 107-122).  Note
the source guard is `page_num > TABLE_MAX_PAGES` (strictly greater), so
`page_num = TABLE_MAX_PAGES` passes the guard and the subsequent
`self.pages[page_num]` indexes a Vec of length TABLE_MAX_PAGES out of
bounds. -/
def Pager.get_page_leaf (p : Pager) (page_num : Nat) : PageResult LeafNode :=
  if page_num > TABLE_MAX_PAGES then PageResult.limitErr
  else
    match p.pages.get? page_num with
    | none => PageResult.indexPanic
    | some slot =>
      match slot.2 with
      | some page => PageResult.ok page
      | none => PageResult.missingErr

/-- Embedding of Pager::get_page_internal (src/pager.rs lines 404-417);
same `>` guard as get_page_leaf. -/
def Pager.get_page_internal (p : Pager) (page_num : Nat) : PageResult InternalNode :=
  if page_num > TABLE_MAX_PAGES then PageResult.limitErr
  else
    match p.pages.get? page_num with
    | none => PageResult.indexPanic
    | some slot =>
      match slot.1 with
      | some page => PageResult.ok page
      | none => PageResult.missingErr

/-- In-place mutation of a leaf page through the `&mut LeafNode` handed out
by the pager: replace the leaf component of the slot, keeping the rest. -/
def Pager.set_page_leaf (p : Pager) (page_num : Nat) (n : LeafNode) : Pager :=
  { p with
    pages := p.pages.set page_num
      (((p.pages.getD page_num (none, none)).1 : Option InternalNode), some n) }

/-- In-place mutation of an internal page through its `&mut InternalNode`. -/
def Pager.set_page_internal (p : Pager) (page_num : Nat) (n : InternalNode) : Pager :=
  { p with
    pages := p.pages.set page_num
      (some n, ((p.pages.getD page_num (none, none)).2 : Option LeafNode)) }

/-- Embedding of a direct slot assignment `self.pages[page_num] = ..`;
`none` models the Vec index panic when the index is out of bounds. -/
def Pager.set_slot (p : Pager) (page_num : Nat)
    (slot : Option InternalNode × Option LeafNode) : Option Pager :=
  if page_num < p.pages.length then some { p with pages := p.pages.set page_num slot }
  else none

/-- Embedding of Pager::ensure_page_leaf (src/pager.rs lines 124-158):
materialize the leaf slot if empty, reading the page from the file when
`page_num < file_length / PAGE_SIZE`.  `none` collapses the unwrapped
errors and panics (internal node in the slot, read/parse failure, index
out of bounds). -/
def Pager.ensure_page_leaf (p : Pager) (page_num : Nat) : Option Pager :=
  match p.pages.get? page_num with
  | none => none
  | some slot =>
    if slot.2.isSome then some p
    else if slot.1.isSome then none
    else
      let file_pages := p.file_length / PAGE_SIZE
      let new_node : Option LeafNode :=
        if page_num < file_pages then
          LeafNode.parse_page (listRead p.file (page_num * PAGE_SIZE) PAGE_SIZE)
        else some LeafNode.new
      match new_node with
      | none => none
      | some n =>
        some { p with
          pages := p.pages.set page_num (none, some n)
          num_pages := p.num_pages + 1 }

/-- Embedding of Pager::get_two_pages_leaf (src/pager.rs lines 160-201):
two simultaneous leaf references; fails on equal page numbers, on the
page-limit guard, or when either leaf is missing.  `none` collapses those
Err cases (every caller unwraps). -/
def Pager.get_two_pages_leaf (p : Pager) (first_page_num second_page_num : Nat) :
    Option (LeafNode × LeafNode) :=
  if first_page_num = second_page_num then none
  else if first_page_num > TABLE_MAX_PAGES ∨ second_page_num > TABLE_MAX_PAGES then none
  else
    match (p.pages.get? first_page_num).bind (fun s => s.2),
        (p.pages.get? second_page_num).bind (fun s => s.2) with
    | some a, some b => some (a, b)
    | _, _ => none

/-- Embedding of Pager::get_unused_page_num. -/
def Pager.get_unused_page_num (p : Pager) : Nat :=
  p.num_pages

/-! Table and Cursor, src/db.rs and src/cursor.rs. -/

structure Table where
  root_page_num : Nat
  pager : Pager
deriving DecidableEq, Repr

/-- Embedding of Table::new: open the pager (unwrap -> none on error) and
start with root_page_num = 0. -/
def Table.new (file : Option (List Nat)) : Option Table :=
  match Pager.open_file file with
  | Except.ok pager => some { root_page_num := 0, pager := pager }
  | Except.error _ => none

/-- A cursor position; the `table` reference of the Rust struct is the
Table value passed alongside. -/
structure Cursor where
  page_num : Nat
  cell_num : Nat
  end_of_table : Bool
deriving DecidableEq, Repr

/-- Embedding of Cursor::table_start (src/cursor.rs lines 12-33): for an
internal root `num_cells` is hard-coded to 1 ("internal node should never
be end of table") and in particular the cursor stays ON the root page and
never descends.  `none` models the node-type / fetch panics. -/
def Cursor.table_start (t : Table) : Option Cursor :=
  match t.pager.get_page_node_type t.root_page_num with
  | none => none
  | some nt =>
    let num_cells : Option Nat :=
      match nt with
      | NodeType.internal => some 1
      | NodeType.leaf =>
        match t.pager.get_page_leaf t.root_page_num with
        | PageResult.ok root_node => some root_node.num_cells
        | _ => none
    num_cells.map fun nc =>
      { page_num := t.root_page_num, cell_num := 0, end_of_table := nc == 0 }

/-- Embedding of Cursor::table_end (src/cursor.rs lines 35-46): fetches the
ROOT page as a leaf and unwraps, so it panics (none) whenever the root is
not a materialized leaf; otherwise it sits past the root leaf's last cell
with end_of_table set. -/
def Cursor.table_end (t : Table) : Option Cursor :=
  match t.pager.get_page_leaf t.root_page_num with
  | PageResult.ok root_node =>
    some { page_num := t.root_page_num, cell_num := root_node.num_cells, end_of_table := true }
  | _ => none

/-- Embedding of Cursor::advance_cursor (src/cursor.rs lines 61-69):
increment cell_num, then fetch the CURRENT page as a leaf (unwrap -> none)
and set end_of_table once cell_num reaches num_cells.  The leaf's
next_leaf link is never consulted and page_num never changes. -/
def Cursor.advance_cursor (t : Table) (c : Cursor) : Option Cursor :=
  let cell_num := c.cell_num + 1
  match t.pager.get_page_leaf c.page_num with
  | PageResult.ok node =>
    some { page_num := c.page_num
           cell_num := cell_num
           end_of_table := if cell_num ≥ node.num_cells then true else c.end_of_table }
  | _ => none

/-- Embedding of Cursor::get_cursor_value (src/cursor.rs lines 71-85):
value bytes of the current cell for a leaf page; `none` models the panic
"Trying to fetch value of an internal node" and the node-type panic. -/
def Cursor.get_cursor_value (t : Table) (c : Cursor) : Option (List Nat) :=
  match t.pager.get_page_node_type c.page_num with
  | some NodeType.leaf =>
    match t.pager.get_page_leaf c.page_num with
    | PageResult.ok node => some (node.get_cell_value c.cell_num)
    | _ => none
  | _ => none

/-! Internal-node operations used by the insert path,
src/internal_node.rs. -/

/-- Embedding of InternalNode::create_new_root_from_leaf
(src/internal_node.rs lines 56-106): copy the old root leaf to a fresh
page, demote the copy, point both children's parent at the root, then
overwrite the root slot with a one-key internal node. -/
def InternalNode.create_new_root_from_leaf (t : Table) (right_page_num : Nat) :
    Option Table :=
  let left_child_page_num := t.pager.get_unused_page_num
  match t.pager.get_page_leaf t.root_page_num with
  | PageResult.ok old_root_node =>
    match t.pager.set_slot left_child_page_num (none, some old_root_node) with
    | none => none
    | some pg1 =>
      match pg1.get_two_pages_leaf left_child_page_num right_page_num with
      | none => none
      | some (left0, right0) =>
        let left1 := { left0 with is_root := false }
        let left_node_max_key := left1.get_max_key
        let left2 := { left1 with parent_ptr := t.root_page_num }
        let right1 := { right0 with parent_ptr := t.root_page_num }
        let pg2 := (pg1.set_page_leaf left_child_page_num left2).set_page_leaf
          right_page_num right1
        let pg3 := { pg2 with num_pages := pg2.num_pages + 1 }
        match pg3.set_slot t.root_page_num (some InternalNode.new, none) with
        | none => none
        | some pg4 =>
          match pg4.get_page_internal t.root_page_num with
          | PageResult.ok nr0 =>
            let nr1 := { nr0 with is_root := true, num_keys := 1 }
            let nr2 := { nr1 with cells := nr1.cells.set 0 (left_node_max_key, left_child_page_num) }
            let nr3 := { nr2 with right_child := right_page_num }
            some { t with pager := pg4.set_page_internal t.root_page_num nr3 }
          | _ => none
  | _ => none

/-! Leaf insert and split, src/leaf_node.rs. -/

/-- Embedding of the cell-shifting loop of LeafNode::insert
(`for i in (cursor.cell_num + 1..=num_cells).rev()`): iteration `k + 1`
copies cell `cell_num + k` over cell `cell_num + k + 1`, walking i from
`num_cells` (at the initial count `num_cells - cell_num`) down to
`cell_num + 1`. -/
def LeafNode.make_room (n : LeafNode) (cell_num : Nat) : Nat → LeafNode
  | 0 => n
  | k + 1 =>
    let n1 := n.set_cell_bytes (cell_num + k + 1) (n.get_cell_bytes (cell_num + k))
    LeafNode.make_room n1 cell_num k

/-- One iteration of the distribution loop of LeafNode::split_and_insert
at index i: destination is the new node when `i ≥ LEAF_NODE_LEFT_SPLIT_COUNT`,
slot `i % LEAF_NODE_LEFT_SPLIT_COUNT`; at `i = cell_num` the fresh cell is
written (key bytes, then serialize_row with `.unwrap()`, hence `none` on a
row error); otherwise cell `i - 1` (above the insertion point) or cell `i`
of the OLD node is copied over. -/
def LeafNode.split_step (cell_num key : Nat) (row : Row) (i : Nat)
    (nodes : LeafNode × LeafNode) : Option (LeafNode × LeafNode) :=
  let old_node := nodes.1
  let new_node := nodes.2
  let to_new := i ≥ LEAF_NODE_LEFT_SPLIT_COUNT
  let index_within_node := i % LEAF_NODE_LEFT_SPLIT_COUNT
  if i = cell_num then
    let dest := if to_new then new_node else old_node
    let dest1 := dest.write_cell_key index_within_node key
    let res := dest1.serialize_row_into_cell index_within_node row
    match res.2 with
    | some _ => none
    | none => some (if to_new then (old_node, res.1) else (res.1, new_node))
  else
    let cell_to_move :=
      if i > cell_num then old_node.get_cell_bytes (i - 1)
      else old_node.get_cell_bytes i
    if to_new then some (old_node, new_node.set_cell_bytes index_within_node cell_to_move)
    else some (old_node.set_cell_bytes index_within_node cell_to_move, new_node)

/-- The distribution loop `for i in (0..=LEAF_NODE_MAX_CELLS).rev()`,
entered with i = LEAF_NODE_MAX_CELLS. -/
def LeafNode.split_loop (cell_num key : Nat) (row : Row) :
    Nat → LeafNode × LeafNode → Option (LeafNode × LeafNode)
  | 0, nodes => LeafNode.split_step cell_num key row 0 nodes
  | i + 1, nodes =>
    (LeafNode.split_step cell_num key row (i + 1) nodes).bind
      (LeafNode.split_loop cell_num key row i)

/-- Embedding of LeafNode::split_and_insert (src/leaf_node.rs lines
289-359).  `none` models the panics: unwrapped ensure/get failures, the
`old page num is greater than new page num` guard, and serialize_row's
`.unwrap()` inside the loop. -/
def LeafNode.split_and_insert (t : Table) (c : Cursor) (key : Nat) (row : Row) :
    Option Table :=
  let old_page_num := c.page_num
  let new_page_num := t.pager.get_unused_page_num
  match t.pager.ensure_page_leaf old_page_num with
  | none => none
  | some pg1 =>
    match pg1.ensure_page_leaf new_page_num with
    | none => none
    | some pg2 =>
      if old_page_num ≥ new_page_num then none
      else
        match pg2.get_two_pages_leaf old_page_num new_page_num with
        | none => none
        | some nodes =>
          match LeafNode.split_loop c.cell_num key row LEAF_NODE_MAX_CELLS nodes with
          | none => none
          | some (old1, new1) =>
            let old2 := { old1 with num_cells := LEAF_NODE_LEFT_SPLIT_COUNT }
            let new2 := { new1 with num_cells := LEAF_NODE_RIGHT_SPLIT_COUNT }
            let new3 := { new2 with next_leaf := old2.next_leaf }
            let old3 := { old2 with next_leaf := new_page_num }
            let pg3 := (pg2.set_page_leaf old_page_num old3).set_page_leaf
              new_page_num new3
            let t1 := { t with pager := pg3 }
            if old3.is_root then InternalNode.create_new_root_from_leaf t1 new_page_num
            else some t1

/-- Embedding of LeafNode::requires_split_and_insert (src/leaf_node.rs
lines 281-287). -/
def LeafNode.requires_split_and_insert (t : Table) (c : Cursor) : Option Bool :=
  match t.pager.get_page_leaf c.page_num with
  | PageResult.ok node => some (node.num_cells ≥ LEAF_NODE_MAX_CELLS)
  | _ => none

/-- Embedding of LeafNode::insert (src/leaf_node.rs lines 240-279): split
when full, otherwise shift cells right of the insertion point, bump
num_cells, write the key bytes and serialize the row in place.  There is
NO duplicate-key check anywhere on this path; a serialize_row error is
only logged ("Could not insert row!") and the partial write is kept. -/
def LeafNode.insert (t : Table) (c : Cursor) (key : Nat) (row : Row) : Option Table :=
  match LeafNode.requires_split_and_insert t c with
  | none => none
  | some true => LeafNode.split_and_insert t c key row
  | some false =>
    match t.pager.get_page_leaf c.page_num with
    | PageResult.ok node =>
      let num_cells := node.num_cells
      let node1 :=
        if c.cell_num < num_cells then node.make_room c.cell_num (num_cells - c.cell_num)
        else node
      let node2 := { node1 with num_cells := num_cells + 1 }
      let node3 := node2.write_cell_key c.cell_num key
      let node4 := (node3.serialize_row_into_cell c.cell_num row).1
      some { t with pager := t.pager.set_page_leaf c.page_num node4 }
    | _ => none

/-! Leaf binary search, src/leaf_node.rs lines 205-238. -/

/-- The `while min_index < max_index` binary-search loop of
LeafNode::node_find: probe (min + max) / 2; on an exact key match break
(the function then returns (min + max) / 2 with the min/max current at the
break, i.e. the probed index); on key < probe shrink max to the probe; else
move min past it.  On normal exit the result is again (min + max) / 2 with
min = max. -/
def LeafNode.find_loop (n : LeafNode) (key : Nat) (min_index max_index : Nat) : Nat :=
  if _h : min_index < max_index then
    let index := (min_index + max_index) / 2
    let key_at_index := n.get_cell_key index
    if key = key_at_index then (min_index + max_index) / 2
    else if key < key_at_index then LeafNode.find_loop n key min_index index
    else LeafNode.find_loop n key (index + 1) max_index
  else (min_index + max_index) / 2
termination_by max_index - min_index
decreasing_by
  · have : (min_index + max_index) / 2 < max_index := by omega
    omega
  · have : min_index ≤ (min_index + max_index) / 2 := by omega
    omega

/-- Embedding of LeafNode::node_find (src/leaf_node.rs lines 205-238):
fetch the leaf (unwrap -> none), run the binary search from [0, num_cells),
and build the cursor with `end_of_table = (num_cells == cell_num)`. -/
def LeafNode.node_find (t : Table) (page_num key : Nat) : Option Cursor :=
  match t.pager.get_page_leaf page_num with
  | PageResult.ok node =>
    let cell_num := LeafNode.find_loop node key 0 node.num_cells
    some { page_num := page_num
           cell_num := cell_num
           end_of_table := node.num_cells == cell_num }
  | _ => none

/-! Statement execution, src/db.rs. -/

/-- Embedding of execute_insert_statement (src/db.rs lines 337-356): the
cursor is obtained from Cursor::table_end — NOT from a key search — and
LeafNode::insert is invoked with the row's id as key.  There is no
duplicate-key check and the function always reports success when it does
not panic. -/
def execute_insert_statement (t : Table) (row : Row) : Option Table :=
  (Cursor.table_end t).bind fun c => LeafNode.insert t c row.id row

/-- Fuel for the select / close while-loops.  advance_cursor never changes
page_num and increments cell_num by 1, so from a cursor on a leaf with
`num_cells` cells the loop body runs at most `num_cells` more times;
`num_cells + 2` therefore strictly bounds the recursion depth, and on a
non-leaf page the body exits at its first step.  The fuel is never
exhausted before the loop's own exit. -/
def scan_fuel (t : Table) (c : Cursor) : Nat :=
  match t.pager.get_page_leaf c.page_num with
  | PageResult.ok node => node.num_cells + 2
  | _ => 1

/-- The `while end_of_table == false` loop of execute_select_statement:
read the row slot at the cursor (unwrap), deserialize it (unwrap), emit it,
advance.  `none` models the panics inside the loop. -/
def select_loop (t : Table) : Nat → Cursor → Option (List Row)
  | 0, _ => none
  | fuel + 1, c =>
    if c.end_of_table then some []
    else
      match Cursor.get_cursor_value t c with
      | none => none
      | some row_slot =>
        let row_data := deserialize_row row_slot
        match Cursor.advance_cursor t c with
        | none => none
        | some c1 => (select_loop t fuel c1).map fun rest => row_data :: rest

/-- Embedding of execute_select_statement (src/db.rs lines 311-335); the
result is the list of rows printed, in emission order. -/
def execute_select_statement (t : Table) : Option (List Row) :=
  (Cursor.table_start t).bind fun c => select_loop t (scan_fuel t c) c

/-- Writing `page` bytes at byte offset `off` of the file
(`write_all_at`); a write past the current end zero-extends first, as the
OS does for the underlying file. -/
def file_write_at (file : List Nat) (off : Nat) (page : List Nat) : List Nat :=
  let pre := file.take off
  (pre ++ List.replicate (off - pre.length) 0) ++ page ++ file.drop (off + page.length)

/-- The page-writing loop of Db::close_db (src/db.rs lines 163-250): while
the cursor is not at end of table, fetch the CURRENT page as a leaf
(`pager.get_page(..)`, read as get_page_leaf — see the header note),
serialize it into a PAGE_SIZE buffer and write it at offset
`PAGE_SIZE * pages_written`, then advance the cursor.  Because the cursor
advances once per CELL while staying on the same page, the same page is
written once per cell, at consecutive offsets — never at
`page_num * PAGE_SIZE`. -/
def close_loop (t : Table) : Nat → Cursor → Nat → List Nat → Option (List Nat)
  | 0, _, _, _ => none
  | fuel + 1, c, pages_written, file =>
    if c.end_of_table then some file
    else
      match t.pager.get_page_leaf c.page_num with
      | PageResult.ok node =>
        let page_to_write := node.serialize_page
        let file1 := file_write_at file (PAGE_SIZE * pages_written) page_to_write
        match Cursor.advance_cursor t c with
        | none => none
        | some c1 => close_loop t fuel c1 (pages_written + 1) file1
      | _ => none

/-- Embedding of Db::close_db: walk from Cursor::table_start writing pages;
the result is the file contents after the writes.  `none` models the
panics and the Err("Error saving db to file!") path. -/
def close_db (t : Table) : Option (List Nat) :=
  (Cursor.table_start t).bind fun c => close_loop t (scan_fuel t c) c 0 t.pager.file

/-! Concrete REPL scenarios used by several claims.  `row_a1` is the
statement `insert 1 a a`, `row_b2` is `insert 2 b b`, `row_c1` is
`insert 1 c c` (byte 97 = 'a', 98 = 'b', 99 = 'c'). -/

def row_a1 : Row := { id := 1, username := [97], email := [97] }

def row_b2 : Row := { id := 2, username := [98], email := [98] }

def row_c1 : Row := { id := 1, username := [99], email := [99] }

/-- The pager produced by opening a fresh (non-existent) file. -/
def fresh_root_pager : Pager :=
  { file := []
    file_length := 0
    num_pages := 1
    pages := (List.replicate TABLE_MAX_PAGES
      ((none, none) : Option InternalNode × Option LeafNode)).set 0
      (none, some { LeafNode.new with is_root := true }) }

/-- The table of a freshly created database file. -/
def table0 : Table := { root_page_num := 0, pager := fresh_root_pager }

/-- State evolution helper: the table after an insert statement, with the
pre-insert table kept on a panic (each evaluation theorem separately
asserts that no panic happened). -/
def after_insert (t : Table) (row : Row) : Table :=
  (execute_insert_statement t row).getD t

/-- A byte string zero-padded to the 64-byte field width, as serialize_row
lays it out and deserialize_row reads it back. -/
def padded64 (l : List Nat) : List Nat :=
  l ++ List.replicate (MAX_STRING_SIZE - l.length) 0

/-- Observation helper: the leaf node materialized at a page, if any. -/
def leaf_at (t : Table) (page_num : Nat) : Option LeafNode :=
  match t.pager.get_page_leaf page_num with
  | PageResult.ok node => some node
  | _ => none

/-- The all-empty page-slot array a pager starts from. -/
def empty_page_slots : List (Option InternalNode × Option LeafNode) :=
  List.replicate TABLE_MAX_PAGES (none, none)

/-- Scenario S2 state: after `insert 2 b b` on a fresh file. -/
def table_b2 : Table := after_insert table0 row_b2

/-- Scenario S2 state: after `insert 2 b b` then `insert 1 a a`.  The
second insert lands on a full root leaf (LEAF_NODE_MAX_CELLS = 1 at
PAGE_SIZE = 150) and splits it, making the root internal. -/
def table_b2a1 : Table := after_insert table_b2 row_a1

/-- Scenario S3 state: after `insert 1 a a` on a fresh file. -/
def table_a1 : Table := after_insert table0 row_a1

/-- Scenario S3 state: after `insert 1 a a` then the duplicate
`insert 1 c c`. -/
def table_a1c : Table := after_insert table_a1 row_c1

/-- The file contents written by close_db after a single `insert 1 a a`. -/
def c3_file : List Nat := (close_db table_a1).getD []

/-- The table obtained by reopening that file. -/
def table_reopened : Table := (Table.new (some c3_file)).getD table0

/-- The internal node sitting at the root page of table_b2a1 (the root
produced by the first leaf split). -/
def root_internal_after_split : InternalNode :=
  match Pager.get_page_internal table_b2a1.pager 0 with
  | PageResult.ok node => node
  | _ => InternalNode.new

/-- A one-cell root leaf whose next_leaf link points at page 7, for
exercising advance_cursor at the end of a leaf that HAS a right sibling. -/
def leaf_c5 : LeafNode :=
  { is_root := true
    parent_ptr := 0
    num_cells := 1
    next_leaf := 7
    cells := List.replicate LEAF_NODE_SPACE_FOR_CELLS 0 }

def table_c5 : Table :=
  { root_page_num := 0
    pager :=
      { file := []
        file_length := 0
        num_pages := 1
        pages := empty_page_slots.set 0 (none, some leaf_c5) } }

def cursor_c5 : Cursor := { page_num := 0, cell_num := 0, end_of_table := false }

/-- A full (one-cell) non-root leaf holding key 5, sitting at page 1 under
an internal root, for exercising split_and_insert on a non-root leaf. -/
def leaf_c6 : LeafNode :=
  { is_root := false
    parent_ptr := 0
    num_cells := 1
    next_leaf := 9
    cells := listWrite (List.replicate LEAF_NODE_SPACE_FOR_CELLS 0) 0 (u32_to_bytes 5) }

def table_c6 : Table :=
  { root_page_num := 0
    pager :=
      { file := []
        file_length := 0
        num_pages := 2
        pages := (empty_page_slots.set 0 (some InternalNode.new, none)).set 1
          (none, some leaf_c6) } }

def cursor_c6 : Cursor := { page_num := 1, cell_num := 1, end_of_table := true }

def row_c6 : Row := { id := 7, username := [120], email := [121] }

/-- A one-cell leaf holding key 5 at page 0, for exercising node_find. -/
def leaf_c7 : LeafNode :=
  { is_root := true
    parent_ptr := 0
    num_cells := 1
    next_leaf := 0
    cells := listWrite (List.replicate LEAF_NODE_SPACE_FOR_CELLS 0) 0 (u32_to_bytes 5) }

def table_c7 : Table :=
  { root_page_num := 0
    pager :=
      { file := []
        file_length := 0
        num_pages := 1
        pages := empty_page_slots.set 0 (none, some leaf_c7) } }

/-! Generic lemmas about the byte-buffer primitives, shared by the codec
and split proofs. -/

theorem listWrite_at (pre rest src : List Nat) (off : Nat) (hoff : off = pre.length)
    (h : src.length ≤ rest.length) :
    listWrite (pre ++ rest) off src = pre ++ src ++ rest.drop src.length := by
  subst hoff
  unfold listWrite
  rw [List.take_left, List.drop_append, List.append_assoc]

theorem listWrite_zero (dst src : List Nat) :
    listWrite dst 0 src = src ++ dst.drop src.length := by
  unfold listWrite
  simp

theorem listRead_at (pre rest : List Nat) (off len : Nat) (hoff : off = pre.length) :
    listRead (pre ++ rest) off len = rest.take len := by
  subst hoff
  unfold listRead
  rw [List.drop_left]

theorem listRead_zero (src : List Nat) (len : Nat) :
    listRead src 0 len = src.take len := by
  unfold listRead
  simp

theorem listRead_full (src : List Nat) (len : Nat) (h : src.length ≤ len) :
    listRead src 0 len = src := by
  rw [listRead_zero]
  exact List.take_all_of_le h

theorem padded64_length (l : List Nat) (h : l.length ≤ MAX_STRING_SIZE) :
    (padded64 l).length = MAX_STRING_SIZE := by
  unfold padded64
  simp
  omega

theorem u32_to_bytes_length (n : Nat) : (u32_to_bytes n).length = 4 := rfl

theorem u32_from_to_bytes (n : Nat) (h : n < 2 ^ 32) :
    u32_from_bytes (u32_to_bytes n) = n := by
  unfold u32_to_bytes u32_from_bytes
  simp only [List.foldr]
  omega

/-- What unsafe_serialize_row writes into ANY 132-byte destination (given
in-bounds field lengths): the id bytes, the zero-padded username slot and
the zero-padded email slot, with no error.  The result does not depend on
the destination's prior contents because each slot is fully overwritten. -/
theorem serialize_row_spec (r : Row) (dst : List Nat) (hdst : dst.length = ROW_SIZE)
    (hu : r.username.length ≤ MAX_STRING_SIZE) (he : r.email.length ≤ MAX_STRING_SIZE) :
    serialize_row r dst =
      (u32_to_bytes r.id ++ padded64 r.username ++ padded64 r.email, none) := by
  have hdst' : dst.length = 132 := hdst
  have hu' : r.username.length ≤ 64 := hu
  have he' : r.email.length ≤ 64 := he
  have hid : (u32_to_bytes r.id).length = 4 := rfl
  unfold serialize_row padded64
  simp only [show ID_OFFSET = 0 from rfl, show USERNAME_OFFSET = 4 from rfl,
    show EMAIL_OFFSET = 68 from rfl, show USERNAME_SIZE = 64 from rfl,
    show EMAIL_SIZE = 64 from rfl, show MAX_STRING_SIZE = 64 from rfl]
  rw [if_neg (by omega), if_neg (by omega)]
  have e1 : listWrite dst 0 (u32_to_bytes r.id) = u32_to_bytes r.id ++ dst.drop 4 := by
    rw [listWrite_zero, hid]
  rw [e1]
  have e2 : listWrite (u32_to_bytes r.id ++ dst.drop 4) 4 (List.replicate 64 0)
      = u32_to_bytes r.id ++ (List.replicate 64 0 ++ dst.drop 68) := by
    rw [listWrite_at (u32_to_bytes r.id) (dst.drop 4) _ 4 hid.symm
      (by simp only [List.length_replicate, List.length_drop, hdst']; omega)]
    rw [List.length_replicate, List.drop_drop, List.append_assoc]
  rw [e2]
  have e3 : listWrite (u32_to_bytes r.id ++ (List.replicate 64 0 ++ dst.drop 68)) 4 r.username
      = u32_to_bytes r.id ++
        ((r.username ++ List.replicate (64 - r.username.length) 0) ++ dst.drop 68) := by
    rw [listWrite_at (u32_to_bytes r.id) (List.replicate 64 0 ++ dst.drop 68) _ 4 hid.symm
      (by simp only [List.length_append, List.length_replicate, List.length_drop, hdst']
          omega)]
    rw [List.drop_append_eq_append_drop, List.drop_replicate,
      show r.username.length - (List.replicate 64 0).length = 0 from by
        simp only [List.length_replicate]; omega,
      List.drop_zero]
    simp [List.append_assoc]
  rw [e3]
  have hpre : (u32_to_bytes r.id ++
      (r.username ++ List.replicate (64 - r.username.length) 0)).length = 68 := by
    simp only [List.length_append, List.length_replicate, hid]
    omega
  have e4 : listWrite (u32_to_bytes r.id ++
        ((r.username ++ List.replicate (64 - r.username.length) 0) ++ dst.drop 68))
      68 (List.replicate 64 0)
      = u32_to_bytes r.id ++
        ((r.username ++ List.replicate (64 - r.username.length) 0) ++ List.replicate 64 0) := by
    rw [show u32_to_bytes r.id ++
        ((r.username ++ List.replicate (64 - r.username.length) 0) ++ dst.drop 68)
      = (u32_to_bytes r.id ++ (r.username ++ List.replicate (64 - r.username.length) 0))
        ++ dst.drop 68 from by simp [List.append_assoc]]
    rw [listWrite_at _ (dst.drop 68) _ 68 hpre.symm
      (by simp only [List.length_replicate, List.length_drop, hdst']; omega)]
    rw [List.length_replicate, List.drop_drop,
      List.drop_eq_nil_of_le (by rw [hdst'])]
    simp [List.append_assoc]
  rw [e4]
  have e5 : listWrite (u32_to_bytes r.id ++
        ((r.username ++ List.replicate (64 - r.username.length) 0) ++ List.replicate 64 0))
      68 r.email
      = u32_to_bytes r.id ++
        ((r.username ++ List.replicate (64 - r.username.length) 0) ++
          (r.email ++ List.replicate (64 - r.email.length) 0)) := by
    rw [show u32_to_bytes r.id ++
        ((r.username ++ List.replicate (64 - r.username.length) 0) ++ List.replicate 64 0)
      = (u32_to_bytes r.id ++ (r.username ++ List.replicate (64 - r.username.length) 0))
        ++ List.replicate 64 0 from by simp [List.append_assoc]]
    rw [listWrite_at _ (List.replicate 64 0) _ 68 hpre.symm
      (by simp only [List.length_replicate]; omega)]
    rw [List.drop_replicate]
    simp [List.append_assoc]
  rw [e5]
  simp [List.append_assoc]

/-- deserialize_row on a buffer laid out as id bytes ++ 64-byte username
slot ++ 64-byte email slot recovers exactly those three parts. -/
theorem deserialize_row_parts (idb u e : List Nat) (hid : idb.length = 4)
    (hu : u.length = 64) (he : e.length = 64) :
    deserialize_row (idb ++ u ++ e) =
      { id := u32_from_bytes idb, username := u, email := e } := by
  unfold deserialize_row
  simp only [show ID_OFFSET = 0 from rfl, show ID_SIZE = 4 from rfl,
    show USERNAME_OFFSET = 4 from rfl, show USERNAME_SIZE = 64 from rfl,
    show EMAIL_OFFSET = 68 from rfl, show EMAIL_SIZE = 64 from rfl]
  have h1 : listRead (idb ++ u ++ e) 0 4 = idb := by
    rw [listRead_zero, List.append_assoc]
    exact List.take_left' hid
  have h2 : listRead (idb ++ u ++ e) 4 64 = u := by
    rw [List.append_assoc, listRead_at idb (u ++ e) 4 64 hid.symm]
    exact List.take_left' hu
  have h3 : listRead (idb ++ u ++ e) 68 64 = e := by
    rw [listRead_at (idb ++ u) e 68 64 (by simp [hid, hu])]
    exact List.take_all_of_le (by omega)
  rw [h1, h2, h3]

/-- Claim C4 counterexample: the claim "deserializing the serialized slot yields
a row equal to r (the trailing zero-padding is dropped)" fails already at
the row (1, "a", "b"): deserialize_row keeps the 64-byte padded fields, so
the round trip does not return r. -/
theorem c4_counterexample :
    deserialize_row (serialize_row row_a1 (List.replicate ROW_SIZE 0)).1 ≠ row_a1 := by
  decide

/-- Claim C4 (amended): for every row whose id fits in a u32 and whose username
and email are at most 64 bytes, serializing into a row slot succeeds and
deserializing the slot yields the row with id intact and with username and
email zero-padded to exactly 64 bytes — the padding written by serialize
is KEPT by deserialize, so round-trip equality holds only for fields of
exactly 64 bytes. -/
theorem c4_roundtrip_padded (r : Row) (hid : r.id < 2 ^ 32)
    (hu : r.username.length ≤ MAX_STRING_SIZE) (he : r.email.length ≤ MAX_STRING_SIZE) :
    (serialize_row r (List.replicate ROW_SIZE 0)).2 = none ∧
    deserialize_row (serialize_row r (List.replicate ROW_SIZE 0)).1 =
      { id := r.id, username := padded64 r.username, email := padded64 r.email } := by
  have hs := serialize_row_spec r (List.replicate ROW_SIZE 0) (by simp) hu he
  rw [hs]
  refine ⟨rfl, ?_⟩
  rw [deserialize_row_parts (u32_to_bytes r.id) (padded64 r.username) (padded64 r.email)
    (u32_to_bytes_length r.id)
    ((padded64_length _ hu).trans rfl) ((padded64_length _ he).trans rfl)]
  rw [u32_from_to_bytes r.id hid]

theorem c4_roundtrip_padded_witness :
    (serialize_row row_a1 (List.replicate ROW_SIZE 0)).2 = none ∧
    deserialize_row (serialize_row row_a1 (List.replicate ROW_SIZE 0)).1 =
      { id := row_a1.id, username := padded64 row_a1.username,
        email := padded64 row_a1.email } :=
  c4_roundtrip_padded row_a1 (by decide) (by decide) (by decide)

/-- Claim C9: the claim says every page_num ≥ TABLE_MAX_PAGES is rejected with
the page-limit error.  The guard in the source is `page_num >
TABLE_MAX_PAGES`, so page_num = TABLE_MAX_PAGES (= 100) slips past it and
the Vec index `self.pages[100]` panics out of bounds, while 101 and above
do return the error. -/
theorem c9_page_limit_off_by_one :
    Pager.get_page_leaf fresh_root_pager TABLE_MAX_PAGES = PageResult.indexPanic ∧
    Pager.get_page_internal fresh_root_pager TABLE_MAX_PAGES = PageResult.indexPanic ∧
    Pager.get_page_leaf fresh_root_pager (TABLE_MAX_PAGES + 1) = PageResult.limitErr ∧
    Pager.get_page_internal fresh_root_pager (TABLE_MAX_PAGES + 1) = PageResult.limitErr :=
  ⟨rfl, rfl, rfl, rfl⟩

/-- Claim C1: evaluation of scenario S2 (`insert 2 b b`, `insert 1 a a`,
`select`) on a fresh file.  The second insert finds the one-cell root leaf
full and splits it, leaving an internal root; select's cursor then sits on
the internal root and get_cursor_value panics, so select emits NO rows —
in particular not the claimed id-1-then-id-2 ordering. -/
theorem c1_select_after_out_of_order_inserts :
    execute_insert_statement table0 row_b2 = some table_b2 ∧
    execute_insert_statement table_b2 row_a1 = some table_b2a1 ∧
    Pager.get_page_node_type table_b2a1.pager 0 = some NodeType.internal ∧
    execute_select_statement table_b2a1 = none :=
  ⟨rfl, rfl, rfl, rfl⟩

/-- Claim C2: evaluation of scenario S3's duplicate insert.  After `insert 1 a a`
the table has one page and one cell with key 1; the duplicate
`insert 1 c c` is NOT rejected: it splits the root and afterwards pages 1
and 2 each hold a cell with key 1 and num_pages has grown from 1 to 3, and
no duplicate-key error exists anywhere on this code path. -/
theorem c2_duplicate_insert_changes_tree :
    execute_insert_statement table0 row_a1 = some table_a1 ∧
    execute_insert_statement table_a1 row_c1 = some table_a1c ∧
    table_a1.pager.num_pages = 1 ∧
    table_a1c.pager.num_pages = 3 ∧
    Pager.get_page_node_type table_a1c.pager 0 = some NodeType.internal ∧
    (leaf_at table_a1c 1).map (fun l => (l.num_cells, l.get_cell_key 0)) = some (1, 1) ∧
    (leaf_at table_a1c 2).map (fun l => (l.num_cells, l.get_cell_key 0)) = some (1, 1) :=
  ⟨rfl, rfl, rfl, rfl, rfl, rfl, rfl⟩

/-- Claim C3: evaluation of the persistence round trip at N = 1.  Before close,
select returns the inserted row; close_db writes one 150-byte page; but
after reopening the same file, select panics (returns no rows): open_file
materializes no pages for a non-empty file, nothing on the read path ever
materializes page 0, and table_start's get_page_node_type panics on the
empty slot. -/
theorem c3_reopen_loses_rows :
    execute_select_statement table_a1 =
      some [{ id := 1, username := padded64 [97], email := padded64 [97] }] ∧
    close_db table_a1 = some c3_file ∧
    c3_file.length = PAGE_SIZE ∧
    Table.new (some c3_file) = some table_reopened ∧
    execute_select_statement table_reopened = none :=
  ⟨rfl, rfl, rfl, rfl, rfl⟩

/-- Claim C10: once the root page slot holds an internal node (and no leaf),
every insert statement panics: execute_insert_statement builds its cursor
with Cursor::table_end, whose get_page_leaf on the root returns an error
that table_end unwraps. -/
theorem c10_insert_after_root_split (t : Table) (row : Row) (node : InternalNode)
    (h : t.pager.pages.get? t.root_page_num = some (some node, none)) :
    execute_insert_statement t row = none := by
  rw [List.get?_eq_getElem?] at h
  by_cases hgt : t.root_page_num > TABLE_MAX_PAGES
  · simp [execute_insert_statement, Cursor.table_end, Pager.get_page_leaf, hgt]
  · simp [execute_insert_statement, Cursor.table_end, Pager.get_page_leaf, hgt, h]

theorem c10_insert_after_root_split_witness :
    execute_insert_statement table_b2a1 row_c1 = none :=
  c10_insert_after_root_split table_b2a1 row_c1 root_internal_after_split rfl

/-- Claim C5 counterexample: a cursor at the last cell of a leaf whose next_leaf
is page 7.  The claim says advance should move to page 7, cell 0; the code
instead leaves page_num at 0 and sets end_of_table, because advance_cursor
never reads next_leaf. -/
theorem c5_counterexample :
    leaf_c5.num_cells = 1 ∧ leaf_c5.next_leaf = 7 ∧
    Cursor.advance_cursor table_c5 cursor_c5 =
      some { page_num := 0, cell_num := 1, end_of_table := true } ∧
    Cursor.advance_cursor table_c5 cursor_c5 ≠
      some { page_num := leaf_c5.next_leaf, cell_num := 0, end_of_table := false } := by
  refine ⟨rfl, rfl, rfl, by decide⟩

/-- Claim C5 (amended): advance_cursor increments cell_num and sets end_of_table
exactly when the incremented cell_num reaches the leaf's num_cells (or it
was already set); page_num never changes and next_leaf is never followed,
so a scan never crosses sibling leaves. -/
theorem c5_advance_no_link_follow (t : Table) (c : Cursor) (node : LeafNode)
    (h : Pager.get_page_leaf t.pager c.page_num = PageResult.ok node) :
    ∃ c1, Cursor.advance_cursor t c = some c1 ∧
      c1.page_num = c.page_num ∧
      c1.cell_num = c.cell_num + 1 ∧
      (c1.end_of_table = true ↔
        (node.num_cells ≤ c.cell_num + 1 ∨ c.end_of_table = true)) := by
  unfold Cursor.advance_cursor
  rw [h]
  refine ⟨_, rfl, rfl, rfl, ?_⟩
  by_cases hn : c.cell_num + 1 ≥ node.num_cells
  · simp [hn]
  · simp only [ge_iff_le, if_neg hn]
    constructor
    · intro he
      exact Or.inr he
    · intro he
      rcases he with he | he
      · omega
      · exact he

theorem c5_advance_no_link_follow_witness :
    ∃ c1, Cursor.advance_cursor table_c5 cursor_c5 = some c1 ∧
      c1.page_num = cursor_c5.page_num ∧
      c1.cell_num = cursor_c5.cell_num + 1 ∧
      (c1.end_of_table = true ↔
        (leaf_c5.num_cells ≤ cursor_c5.cell_num + 1 ∨ cursor_c5.end_of_table = true)) :=
  c5_advance_no_link_follow table_c5 cursor_c5 leaf_c5 rfl

theorem find_loop_exit (node : LeafNode) (key minI maxI : Nat) (h : ¬ minI < maxI) :
    LeafNode.find_loop node key minI maxI = (minI + maxI) / 2 := by
  unfold LeafNode.find_loop
  rw [dif_neg h]

theorem find_loop_break (node : LeafNode) (key minI maxI : Nat) (h : minI < maxI)
    (heq : key = node.get_cell_key ((minI + maxI) / 2)) :
    LeafNode.find_loop node key minI maxI = (minI + maxI) / 2 := by
  unfold LeafNode.find_loop
  rw [dif_pos h]
  simp only [if_pos heq]

theorem find_loop_go_left (node : LeafNode) (key minI maxI : Nat) (h : minI < maxI)
    (hne : ¬ key = node.get_cell_key ((minI + maxI) / 2))
    (hlt : key < node.get_cell_key ((minI + maxI) / 2)) :
    LeafNode.find_loop node key minI maxI =
      LeafNode.find_loop node key minI ((minI + maxI) / 2) := by
  conv_lhs => unfold LeafNode.find_loop
  rw [dif_pos h]
  simp only [if_neg hne, if_pos hlt]

theorem find_loop_go_right (node : LeafNode) (key minI maxI : Nat) (h : minI < maxI)
    (hne : ¬ key = node.get_cell_key ((minI + maxI) / 2))
    (hge : ¬ key < node.get_cell_key ((minI + maxI) / 2)) :
    LeafNode.find_loop node key minI maxI =
      LeafNode.find_loop node key ((minI + maxI) / 2 + 1) maxI := by
  conv_lhs => unfold LeafNode.find_loop
  rw [dif_pos h]
  simp only [if_neg hne, if_neg hge]

/-- Invariant proof for the binary-search loop: starting from a window
[minI, maxI] of a strictly-ascending leaf in which everything below minI
is < key and everything from maxI on is ≥ key, the loop returns the least
index whose key is ≥ key (num_cells when there is none). -/
theorem find_loop_spec (node : LeafNode) (key : Nat) :
    ∀ fuel minI maxI, maxI - minI ≤ fuel → minI ≤ maxI → maxI ≤ node.num_cells →
      (∀ j, j < minI → node.get_cell_key j < key) →
      (∀ j, maxI ≤ j → j < node.num_cells → key ≤ node.get_cell_key j) →
      (∀ i j, i < j → j < node.num_cells → node.get_cell_key i < node.get_cell_key j) →
      LeafNode.find_loop node key minI maxI ≤ node.num_cells ∧
      (∀ j, j < LeafNode.find_loop node key minI maxI → node.get_cell_key j < key) ∧
      (LeafNode.find_loop node key minI maxI < node.num_cells →
        key ≤ node.get_cell_key (LeafNode.find_loop node key minI maxI)) := by
  intro fuel
  induction fuel with
  | zero =>
    intro minI maxI hf hle hmax hlo hhi _hsort
    have heq : minI = maxI := by omega
    rw [find_loop_exit node key minI maxI (by omega)]
    have hres : (minI + maxI) / 2 = minI := by omega
    rw [hres]
    refine ⟨by omega, hlo, fun hlt => hhi minI (by omega) hlt⟩
  | succ fuel ih =>
    intro minI maxI hf hle hmax hlo hhi hsort
    by_cases hwin : minI < maxI
    · have hidx_lt : (minI + maxI) / 2 < maxI := by omega
      have hidx_ge : minI ≤ (minI + maxI) / 2 := by omega
      have hidx_n : (minI + maxI) / 2 < node.num_cells := by omega
      by_cases heq : key = node.get_cell_key ((minI + maxI) / 2)
      · rw [find_loop_break node key minI maxI hwin heq]
        refine ⟨by omega, ?_, fun _ => le_of_eq heq⟩
        intro j hj
        rcases Nat.lt_or_ge j minI with hjm | hjm
        · exact hlo j hjm
        · have := hsort j ((minI + maxI) / 2) hj hidx_n
          omega
      · by_cases hklt : key < node.get_cell_key ((minI + maxI) / 2)
        · rw [find_loop_go_left node key minI maxI hwin heq hklt]
          refine ih minI ((minI + maxI) / 2) (by omega) (by omega) (by omega) hlo ?_ hsort
          intro j hj hjn
          rcases Nat.eq_or_lt_of_le hj with hj' | hj'
          · rw [← hj']
            exact le_of_lt hklt
          · have := hsort ((minI + maxI) / 2) j hj' hjn
            omega
        · rw [find_loop_go_right node key minI maxI hwin heq hklt]
          have hkgt : node.get_cell_key ((minI + maxI) / 2) < key := by omega
          refine ih ((minI + maxI) / 2 + 1) maxI (by omega) (by omega) (by omega) ?_ hhi hsort
          intro j hj
          rcases Nat.lt_or_ge j ((minI + maxI) / 2) with hj' | hj'
          · have := hsort j ((minI + maxI) / 2) hj' hidx_n
            omega
          · have hj'' : j = (minI + maxI) / 2 := by omega
            rw [hj'']
            exact hkgt
    · have heq : minI = maxI := by omega
      rw [find_loop_exit node key minI maxI hwin]
      have hres : (minI + maxI) / 2 = minI := by omega
      rw [hres]
      refine ⟨by omega, hlo, fun hlt => hhi minI (by omega) hlt⟩

/-- Claim C7: on a leaf with strictly ascending keys, node_find returns a cursor
on the same page whose cell_num is the least index with
cell_key(cell_num) ≥ key — or num_cells when every key is below key — and
whose end_of_table flag is set exactly when cell_num equals num_cells. -/
theorem c7_leaf_find_spec (t : Table) (page_num key : Nat) (node : LeafNode)
    (hleaf : Pager.get_page_leaf t.pager page_num = PageResult.ok node)
    (hsorted : ∀ i j, i < j → j < node.num_cells →
      node.get_cell_key i < node.get_cell_key j) :
    ∃ c, LeafNode.node_find t page_num key = some c ∧
      c.page_num = page_num ∧
      c.cell_num ≤ node.num_cells ∧
      (∀ i, i < c.cell_num → node.get_cell_key i < key) ∧
      (c.cell_num < node.num_cells → key ≤ node.get_cell_key c.cell_num) ∧
      (c.end_of_table = true ↔ c.cell_num = node.num_cells) := by
  unfold LeafNode.node_find
  rw [hleaf]
  obtain ⟨h1, h2, h3⟩ := find_loop_spec node key node.num_cells 0 node.num_cells
    (by omega) (by omega) (by omega) (by omega) (fun j hj hjn => by omega) hsorted
  refine ⟨_, rfl, rfl, h1, h2, h3, ?_⟩
  show (node.num_cells == LeafNode.find_loop node key 0 node.num_cells) = true ↔
    LeafNode.find_loop node key 0 node.num_cells = node.num_cells
  constructor
  · intro hb
    exact (beq_iff_eq.mp hb).symm
  · intro hr
    exact beq_iff_eq.mpr hr.symm

theorem c7_leaf_find_spec_witness :
    ∃ c, LeafNode.node_find table_c7 0 3 = some c ∧
      c.page_num = 0 ∧
      c.cell_num ≤ leaf_c7.num_cells ∧
      (∀ i, i < c.cell_num → leaf_c7.get_cell_key i < 3) ∧
      (c.cell_num < leaf_c7.num_cells → 3 ≤ leaf_c7.get_cell_key c.cell_num) ∧
      (c.end_of_table = true ↔ c.cell_num = leaf_c7.num_cells) :=
  c7_leaf_find_spec table_c7 0 3 leaf_c7 rfl
    (by
      intro i j hij hj
      rw [show leaf_c7.num_cells = 1 from rfl] at hj
      omega)

/-- Claim C8: Pager::open_file behavior.  A non-existent file (and an existing
empty one) yields a pager whose page 0 is a fresh leaf with is_root set and
num_pages = 1; an existing file whose length is not a multiple of
PAGE_SIZE fails with the corrupt-file error and produces no pager; an
existing non-empty well-sized file yields num_pages = length / PAGE_SIZE
with EVERY page slot empty — no page is read eagerly. -/
theorem c8_open_file_spec (file : Option (List Nat)) :
    (file = none → Pager.open_file file = Except.ok fresh_root_pager) ∧
    (∀ bs, file = some bs → bs.length % PAGE_SIZE ≠ 0 →
      Pager.open_file file = Except.error OpenError.corruptFile) ∧
    (∀ bs, file = some bs → bs.length = 0 →
      Pager.open_file file = Except.ok fresh_root_pager) ∧
    (∀ bs, file = some bs → bs.length % PAGE_SIZE = 0 → bs.length ≠ 0 →
      Pager.open_file file = Except.ok
        { file := bs
          file_length := bs.length
          num_pages := bs.length / PAGE_SIZE
          pages := empty_page_slots }) := by
  refine ⟨?_, ?_, ?_, ?_⟩
  · intro h
    subst h
    rfl
  · intro bs h hmod
    subst h
    simp [Pager.open_file, hmod]
  · intro bs h hzero
    subst h
    have hnil : bs = [] := List.length_eq_zero.mp hzero
    subst hnil
    rfl
  · intro bs h hmod hne
    subst h
    simp [Pager.open_file, hmod, hne]
    rfl

theorem c8_open_file_spec_witness :
    Pager.open_file none = Except.ok fresh_root_pager ∧
    Pager.open_file (some (List.replicate 75 0)) = Except.error OpenError.corruptFile ∧
    Pager.open_file (some []) = Except.ok fresh_root_pager ∧
    Pager.open_file (some (List.replicate 150 0)) = Except.ok
      { file := List.replicate 150 0
        file_length := (List.replicate 150 0).length
        num_pages := (List.replicate 150 0).length / PAGE_SIZE
        pages := empty_page_slots } :=
  ⟨(c8_open_file_spec none).1 rfl,
   (c8_open_file_spec (some (List.replicate 75 0))).2.1 _ rfl (by decide),
   (c8_open_file_spec (some [])).2.2.1 _ rfl rfl,
   (c8_open_file_spec (some (List.replicate 150 0))).2.2.2 _ rfl (by decide) (by decide)⟩

/-! Helper lemmas for the split proof. -/

theorem lt_length_of_get?_eq_some {α : Type} (l : List α) (n : Nat) (a : α)
    (h : l.get? n = some a) : n < l.length := by
  rcases List.get?_eq_some.mp h with ⟨hlt, _⟩
  exact hlt

theorem get_cell_bytes_zero_full (n : LeafNode)
    (h : n.cells.length = LEAF_NODE_SPACE_FOR_CELLS) :
    n.get_cell_bytes 0 = n.cells := by
  unfold LeafNode.get_cell_bytes
  rw [Nat.zero_mul, listRead_full _ _ (by rw [h]; decide)]

theorem get_cell_bytes_mk_zero (b : Bool) (pp nc nl : Nat) (cs : List Nat)
    (h : cs.length = LEAF_NODE_SPACE_FOR_CELLS) :
    (LeafNode.mk b pp nc nl cs).get_cell_bytes 0 = cs :=
  get_cell_bytes_zero_full _ h

theorem set_cell_bytes_zero_self (n : LeafNode) :
    n.set_cell_bytes 0 n.cells = n := by
  unfold LeafNode.set_cell_bytes
  rw [Nat.zero_mul, listWrite_zero, List.drop_length, List.append_nil]

theorem set_cell_bytes_zero_fresh (n : LeafNode) (bytes : List Nat)
    (hn : n.cells.length = LEAF_NODE_SPACE_FOR_CELLS)
    (hb : bytes.length = LEAF_NODE_CELL_SIZE) :
    n.set_cell_bytes 0 bytes = { n with cells := bytes } := by
  unfold LeafNode.set_cell_bytes
  rw [Nat.zero_mul, listWrite_zero, List.drop_eq_nil_of_le (by rw [hn, hb]; decide),
    List.append_nil]

theorem write_cell_key_zero (n : LeafNode) (key : Nat) :
    n.write_cell_key 0 key = { n with cells := u32_to_bytes key ++ n.cells.drop 4 } := by
  unfold LeafNode.write_cell_key
  rw [show 0 * LEAF_NODE_CELL_SIZE + LEAF_NODE_KEY_OFFSET = 0 from rfl, listWrite_zero,
    u32_to_bytes_length]

theorem serialize_into_cell_after_key (n : LeafNode) (row : Row) (keyB rest : List Nat)
    (hc : n.cells = keyB ++ rest) (hk : keyB.length = 4) (hr : rest.length = 132)
    (hu : row.username.length ≤ MAX_STRING_SIZE) (he : row.email.length ≤ MAX_STRING_SIZE) :
    n.serialize_row_into_cell 0 row =
      ({ n with cells :=
          keyB ++ (u32_to_bytes row.id ++ padded64 row.username ++ padded64 row.email) },
        none) := by
  have hslen : (u32_to_bytes row.id ++ padded64 row.username ++ padded64 row.email).length
      = 132 := by
    simp only [List.length_append, u32_to_bytes_length,
      (padded64_length _ hu).trans rfl, (padded64_length _ he).trans rfl]
    decide
  have hregion : n.get_cell_value 0 = rest := by
    unfold LeafNode.get_cell_value
    rw [show 0 * LEAF_NODE_CELL_SIZE + LEAF_NODE_VALUE_OFFSET = 4 from rfl, hc,
      listRead_at keyB rest 4 LEAF_NODE_VALUE_SIZE hk.symm]
    exact List.take_all_of_le (by rw [hr]; decide)
  have hser : serialize_row row rest =
      (u32_to_bytes row.id ++ padded64 row.username ++ padded64 row.email, none) :=
    serialize_row_spec row rest (by rw [hr]; rfl) hu he
  unfold LeafNode.serialize_row_into_cell
  simp only [hregion, hser]
  rw [show 0 * LEAF_NODE_CELL_SIZE + LEAF_NODE_VALUE_OFFSET = 4 from rfl, hc,
    listWrite_at keyB rest _ 4 hk.symm (by rw [hslen, hr]),
    hslen, List.drop_eq_nil_of_le (by rw [hr]), List.append_nil]

/-- The distribution loop in the append case (cursor at cell 1 = past the
single existing cell): iteration i = 1 writes the fresh cell into the new
node's cell 0, iteration i = 0 copies the old cell onto itself. -/
theorem split_loop_append_case (node : LeafNode) (key : Nat) (row : Row)
    (hlen : node.cells.length = LEAF_NODE_SPACE_FOR_CELLS)
    (hu : row.username.length ≤ MAX_STRING_SIZE)
    (he : row.email.length ≤ MAX_STRING_SIZE) :
    LeafNode.split_loop 1 key row LEAF_NODE_MAX_CELLS (node, LeafNode.new) =
      some (node, { LeafNode.new with
        cells := u32_to_bytes key ++
          (u32_to_bytes row.id ++ padded64 row.username ++ padded64 row.email) }) := by
  have hwk : (LeafNode.new).write_cell_key 0 key =
      { LeafNode.new with cells := u32_to_bytes key ++ List.replicate 132 0 } := by
    rw [write_cell_key_zero]
    rfl
  have hser := serialize_into_cell_after_key
    ({ LeafNode.new with cells := u32_to_bytes key ++ List.replicate 132 0 }) row
    (u32_to_bytes key) (List.replicate 132 0) rfl (u32_to_bytes_length key)
    (List.length_replicate 132 0) hu he
  have hstep1 : LeafNode.split_step 1 key row (0 + 1) (node, LeafNode.new) =
      some (node, { LeafNode.new with
        cells := u32_to_bytes key ++
          (u32_to_bytes row.id ++ padded64 row.username ++ padded64 row.email) }) := by
    unfold LeafNode.split_step
    norm_num [show LEAF_NODE_LEFT_SPLIT_COUNT = 1 from rfl]
    rw [hwk, hser]
    rfl
  have hstep0 : LeafNode.split_step 1 key row 0
      (node, ({ LeafNode.new with
        cells := u32_to_bytes key ++
          (u32_to_bytes row.id ++ padded64 row.username ++ padded64 row.email) } : LeafNode)) =
      some (node, { LeafNode.new with
        cells := u32_to_bytes key ++
          (u32_to_bytes row.id ++ padded64 row.username ++ padded64 row.email) }) := by
    unfold LeafNode.split_step
    norm_num [show LEAF_NODE_LEFT_SPLIT_COUNT = 1 from rfl]
    rw [get_cell_bytes_zero_full node hlen, set_cell_bytes_zero_self]
  show (LeafNode.split_step 1 key row (0 + 1) (node, LeafNode.new)).bind
      (LeafNode.split_loop 1 key row 0) = _
  rw [hstep1]
  show LeafNode.split_step 1 key row 0 _ = _
  rw [hstep0]

/-- The distribution loop in the front-insert case (cursor at cell 0):
iteration i = 1 copies the single old cell into the new node's cell 0,
iteration i = 0 writes the fresh cell into the old node's cell 0. -/
theorem split_loop_front_case (node : LeafNode) (key : Nat) (row : Row)
    (hlen : node.cells.length = LEAF_NODE_SPACE_FOR_CELLS)
    (hu : row.username.length ≤ MAX_STRING_SIZE)
    (he : row.email.length ≤ MAX_STRING_SIZE) :
    LeafNode.split_loop 0 key row LEAF_NODE_MAX_CELLS (node, LeafNode.new) =
      some ({ node with
        cells := u32_to_bytes key ++
          (u32_to_bytes row.id ++ padded64 row.username ++ padded64 row.email) },
        { LeafNode.new with cells := node.cells }) := by
  have hnew : ({ LeafNode.new with cells := node.cells } : LeafNode) =
      (LeafNode.new).set_cell_bytes 0 node.cells := by
    rw [set_cell_bytes_zero_fresh _ _ (by rfl) (hlen.trans rfl)]
  have hstep1 : LeafNode.split_step 0 key row (0 + 1) (node, LeafNode.new) =
      some (node, { LeafNode.new with cells := node.cells }) := by
    unfold LeafNode.split_step
    norm_num [show LEAF_NODE_LEFT_SPLIT_COUNT = 1 from rfl]
    rw [get_cell_bytes_zero_full node hlen, hnew]
  have hwk : node.write_cell_key 0 key =
      { node with cells := u32_to_bytes key ++ node.cells.drop 4 } :=
    write_cell_key_zero node key
  have hser := serialize_into_cell_after_key
    ({ node with cells := u32_to_bytes key ++ node.cells.drop 4 }) row
    (u32_to_bytes key) (node.cells.drop 4) rfl (u32_to_bytes_length key)
    (by rw [List.length_drop, hlen]; rfl) hu he
  have hstep0 : LeafNode.split_step 0 key row 0
      (node, ({ LeafNode.new with cells := node.cells } : LeafNode)) =
      some ({ node with
        cells := u32_to_bytes key ++
          (u32_to_bytes row.id ++ padded64 row.username ++ padded64 row.email) },
        { LeafNode.new with cells := node.cells }) := by
    unfold LeafNode.split_step
    norm_num [show LEAF_NODE_LEFT_SPLIT_COUNT = 1 from rfl]
    rw [hwk, hser]
    rfl
  show (LeafNode.split_step 0 key row (0 + 1) (node, LeafNode.new)).bind
      (LeafNode.split_loop 0 key row 0) = _
  rw [hstep1]
  show LeafNode.split_step 0 key row 0 _ = _
  rw [hstep0]

/-- Claim C6: inserting into a leaf that already holds LEAF_NODE_MAX_CELLS cells
splits it.  Afterwards the old (non-root) leaf holds LEAF_NODE_LEFT_SPLIT_COUNT
cells and the new leaf LEAF_NODE_RIGHT_SPLIT_COUNT cells; the two leaves'
cells, read left to right, are exactly the old cells with the fresh cell
inserted at the cursor position (so lower-indexed — for a search-positioned
cursor, lower-keyed — cells stay left); the new leaf inherits the old
leaf's next_leaf and the old leaf's next_leaf becomes the new page number. -/
theorem c6_split_spec (t : Table) (c : Cursor) (key : Nat) (row : Row) (node : LeafNode)
    (hleaf : Pager.get_page_leaf t.pager c.page_num = PageResult.ok node)
    (hfull : node.num_cells = LEAF_NODE_MAX_CELLS)
    (hlen : node.cells.length = LEAF_NODE_SPACE_FOR_CELLS)
    (hroot : node.is_root = false)
    (hcell : c.cell_num ≤ LEAF_NODE_MAX_CELLS)
    (hpage : c.page_num < t.pager.num_pages)
    (hslot : t.pager.pages.get? t.pager.num_pages = some (none, none))
    (hfile : t.pager.file_length / PAGE_SIZE ≤ t.pager.num_pages)
    (hlim : t.pager.num_pages ≤ TABLE_MAX_PAGES)
    (hu : row.username.length ≤ MAX_STRING_SIZE)
    (he : row.email.length ≤ MAX_STRING_SIZE) :
    ∃ t1 old_leaf new_leaf,
      LeafNode.insert t c key row = some t1 ∧
      leaf_at t1 c.page_num = some old_leaf ∧
      leaf_at t1 t.pager.num_pages = some new_leaf ∧
      old_leaf.num_cells = LEAF_NODE_LEFT_SPLIT_COUNT ∧
      new_leaf.num_cells = LEAF_NODE_RIGHT_SPLIT_COUNT ∧
      LEAF_NODE_LEFT_SPLIT_COUNT =
        (LEAF_NODE_MAX_CELLS + 1) - (LEAF_NODE_MAX_CELLS + 1) / 2 ∧
      LEAF_NODE_RIGHT_SPLIT_COUNT = (LEAF_NODE_MAX_CELLS + 1) / 2 ∧
      (List.range old_leaf.num_cells).map old_leaf.get_cell_bytes ++
        (List.range new_leaf.num_cells).map new_leaf.get_cell_bytes =
        List.insertIdx c.cell_num
          (u32_to_bytes key ++
            (u32_to_bytes row.id ++ padded64 row.username ++ padded64 row.email))
          ((List.range node.num_cells).map node.get_cell_bytes) ∧
      new_leaf.next_leaf = node.next_leaf ∧
      old_leaf.next_leaf = t.pager.num_pages := by
  have hlim' : t.pager.num_pages ≤ 100 := hlim
  have hnp : ¬ c.page_num > TABLE_MAX_PAGES := by
    show ¬ c.page_num > 100
    omega
  have hnp2 : ¬ t.pager.num_pages > TABLE_MAX_PAGES := by
    show ¬ t.pager.num_pages > 100
    omega
  have hslot_old : ∃ s, t.pager.pages.get? c.page_num = some s ∧ s.2 = some node := by
    have h := hleaf
    unfold Pager.get_page_leaf at h
    rw [if_neg hnp] at h
    cases hg : t.pager.pages.get? c.page_num with
    | none => rw [hg] at h; simp at h
    | some s =>
      rw [hg] at h
      have h2 : (match s.2 with
        | some page => PageResult.ok page
        | none => PageResult.missingErr) = PageResult.ok node := h
      cases hs2 : s.2 with
      | none => rw [hs2] at h2; simp at h2
      | some nd =>
        rw [hs2] at h2
        refine ⟨s, rfl, ?_⟩
        rw [hs2]
        injection h2 with h'
        rw [h']
  obtain ⟨slot, hg, hs2⟩ := hslot_old
  have hreq : LeafNode.requires_split_and_insert t c = some true := by
    simp [LeafNode.requires_split_and_insert, hleaf, hfull]
  have hens1 : Pager.ensure_page_leaf t.pager c.page_num = some t.pager := by
    unfold Pager.ensure_page_leaf
    rw [hg]
    simp [hs2]
  have hnr : ¬ t.pager.num_pages < t.pager.file_length / PAGE_SIZE := by omega
  have hens2 : Pager.ensure_page_leaf t.pager t.pager.num_pages =
      some { t.pager with
        pages := t.pager.pages.set t.pager.num_pages (none, some LeafNode.new)
        num_pages := t.pager.num_pages + 1 } := by
    unfold Pager.ensure_page_leaf
    rw [hslot]
    simp [hnr]
  have hnew_lt : t.pager.num_pages < t.pager.pages.length :=
    lt_length_of_get?_eq_some _ _ _ hslot
  have hold_lt : c.page_num < t.pager.pages.length :=
    lt_length_of_get?_eq_some _ _ _ hg
  have hne_po : c.page_num ≠ t.pager.num_pages := Nat.ne_of_lt hpage
  have hga : (t.pager.pages.set t.pager.num_pages (none, some LeafNode.new)).get?
      c.page_num = some slot := by
    rw [List.get?_set_ne _ _ hne_po.symm]
    exact hg
  have hgb : (t.pager.pages.set t.pager.num_pages (none, some LeafNode.new)).get?
      t.pager.num_pages = some (none, some LeafNode.new) :=
    List.get?_set_eq_of_lt _ hnew_lt
  have htwo : Pager.get_two_pages_leaf
      { t.pager with
        pages := t.pager.pages.set t.pager.num_pages (none, some LeafNode.new)
        num_pages := t.pager.num_pages + 1 }
      c.page_num t.pager.num_pages = some (node, LeafNode.new) := by
    unfold Pager.get_two_pages_leaf
    rw [if_neg hne_po, if_neg (not_or.mpr ⟨hnp, hnp2⟩)]
    simp only [hga, hgb, Option.bind, hs2]
  have hcell' : c.cell_num ≤ 1 := hcell
  have hnewcell_len : (u32_to_bytes key ++
      (u32_to_bytes row.id ++ padded64 row.username ++ padded64 row.email)).length
      = LEAF_NODE_SPACE_FOR_CELLS := by
    simp only [List.length_append, u32_to_bytes_length,
      (padded64_length _ hu).trans rfl, (padded64_length _ he).trans rfl]
    decide
  have hif_ge : ¬ c.page_num ≥ t.pager.num_pages := by omega
  have hgeF : (c.page_num ≥ t.pager.num_pages) = False := eq_false hif_ge
  have hmain : ∀ old1 new1 : LeafNode,
      LeafNode.split_loop c.cell_num key row LEAF_NODE_MAX_CELLS (node, LeafNode.new)
        = some (old1, new1) →
      old1.is_root = false →
      ∃ t1, LeafNode.insert t c key row = some t1 ∧
        leaf_at t1 c.page_num = some { old1 with
          num_cells := LEAF_NODE_LEFT_SPLIT_COUNT
          next_leaf := t.pager.num_pages } ∧
        leaf_at t1 t.pager.num_pages = some { new1 with
          num_cells := LEAF_NODE_RIGHT_SPLIT_COUNT
          next_leaf := old1.next_leaf } := by
    intro old1 new1 hloop hroot1
    have hgdA : (t.pager.pages.set t.pager.num_pages (none, some LeafNode.new)).getD
        c.page_num (none, none) = slot := by
      show ((t.pager.pages.set t.pager.num_pages (none, some LeafNode.new)).get?
        c.page_num).getD (none, none) = slot
      rw [hga]
      rfl
    have hins : LeafNode.insert t c key row = some { t with pager :=
        { t.pager with
          pages := ((t.pager.pages.set t.pager.num_pages (none, some LeafNode.new)).set
            c.page_num (slot.1, some { old1 with
              num_cells := LEAF_NODE_LEFT_SPLIT_COUNT
              next_leaf := t.pager.num_pages })).set t.pager.num_pages
            (((((t.pager.pages.set t.pager.num_pages (none, some LeafNode.new)).set
              c.page_num (slot.1, some { old1 with
                num_cells := LEAF_NODE_LEFT_SPLIT_COUNT
                next_leaf := t.pager.num_pages })).getD t.pager.num_pages
                  (none, none)).1 : Option InternalNode),
              some { new1 with
                num_cells := LEAF_NODE_RIGHT_SPLIT_COUNT
                next_leaf := old1.next_leaf })
          num_pages := t.pager.num_pages + 1 } } := by
      simp only [LeafNode.insert, hreq, LeafNode.split_and_insert,
        Pager.get_unused_page_num, hens1, hens2, htwo, hloop, Option.bind,
        Pager.set_page_leaf, hgdA, hgeF, if_false, hroot1, Bool.false_eq_true]
    refine ⟨_, hins, ?_, ?_⟩
    · unfold leaf_at Pager.get_page_leaf
      rw [if_neg hnp]
      rw [List.get?_set_ne _ _ hne_po.symm]
      rw [List.get?_set_eq_of_lt _ (by rw [List.length_set]; exact hold_lt)]
    · unfold leaf_at Pager.get_page_leaf
      rw [if_neg hnp2]
      rw [List.get?_set_eq_of_lt _
        (by rw [List.length_set, List.length_set]; exact hnew_lt)]
  rcases (by omega : c.cell_num = 0 ∨ c.cell_num = 1) with hcn | hcn
  · -- insert at the front: the fresh cell lands in the old leaf
    have hloop : LeafNode.split_loop c.cell_num key row LEAF_NODE_MAX_CELLS
        (node, LeafNode.new) = some
          ({ node with cells := u32_to_bytes key ++
            (u32_to_bytes row.id ++ padded64 row.username ++ padded64 row.email) },
           { LeafNode.new with cells := node.cells }) := by
      rw [hcn]
      exact split_loop_front_case node key row hlen hu he
    obtain ⟨t1, hins, hA, hB⟩ := hmain _ _ hloop hroot
    refine ⟨t1, _, _, hins, hA, hB, rfl, rfl, rfl, rfl, ?_, rfl, rfl⟩
    rw [hcn, hfull]
    rw [show LEAF_NODE_LEFT_SPLIT_COUNT = 1 from rfl,
      show LEAF_NODE_RIGHT_SPLIT_COUNT = 1 from rfl,
      show LEAF_NODE_MAX_CELLS = 1 from rfl,
      show List.range 1 = [0] from rfl]
    simp only [List.map_cons, List.map_nil, List.insertIdx_zero,
      List.singleton_append, List.cons_append, List.nil_append]
    rw [get_cell_bytes_mk_zero _ _ _ _ _ hnewcell_len, get_cell_bytes_mk_zero _ _ _ _ _ hlen,
      get_cell_bytes_zero_full node hlen]
  · -- append: the fresh cell lands in the new leaf
    have hloop : LeafNode.split_loop c.cell_num key row LEAF_NODE_MAX_CELLS
        (node, LeafNode.new) = some
          (node,
           { LeafNode.new with cells := u32_to_bytes key ++
             (u32_to_bytes row.id ++ padded64 row.username ++ padded64 row.email) }) := by
      rw [hcn]
      exact split_loop_append_case node key row hlen hu he
    obtain ⟨t1, hins, hA, hB⟩ := hmain _ _ hloop hroot
    refine ⟨t1, _, _, hins, hA, hB, rfl, rfl, rfl, rfl, ?_, rfl, rfl⟩
    rw [hcn, hfull]
    rw [show LEAF_NODE_LEFT_SPLIT_COUNT = 1 from rfl,
      show LEAF_NODE_RIGHT_SPLIT_COUNT = 1 from rfl,
      show LEAF_NODE_MAX_CELLS = 1 from rfl,
      show List.range 1 = [0] from rfl]
    simp only [List.map_cons, List.map_nil,
      List.insertIdx_succ_cons, List.insertIdx_zero,
      List.singleton_append, List.cons_append, List.nil_append]
    rw [get_cell_bytes_mk_zero _ _ _ _ _ hnewcell_len, get_cell_bytes_mk_zero _ _ _ _ _ hlen,
      get_cell_bytes_zero_full node hlen]

theorem c6_split_spec_witness :
    ∃ t1 old_leaf new_leaf,
      LeafNode.insert table_c6 cursor_c6 7 row_c6 = some t1 ∧
      leaf_at t1 cursor_c6.page_num = some old_leaf ∧
      leaf_at t1 table_c6.pager.num_pages = some new_leaf ∧
      old_leaf.num_cells = LEAF_NODE_LEFT_SPLIT_COUNT ∧
      new_leaf.num_cells = LEAF_NODE_RIGHT_SPLIT_COUNT ∧
      LEAF_NODE_LEFT_SPLIT_COUNT =
        (LEAF_NODE_MAX_CELLS + 1) - (LEAF_NODE_MAX_CELLS + 1) / 2 ∧
      LEAF_NODE_RIGHT_SPLIT_COUNT = (LEAF_NODE_MAX_CELLS + 1) / 2 ∧
      (List.range old_leaf.num_cells).map old_leaf.get_cell_bytes ++
        (List.range new_leaf.num_cells).map new_leaf.get_cell_bytes =
        List.insertIdx cursor_c6.cell_num
          (u32_to_bytes 7 ++
            (u32_to_bytes row_c6.id ++ padded64 row_c6.username ++ padded64 row_c6.email))
          ((List.range leaf_c6.num_cells).map leaf_c6.get_cell_bytes) ∧
      new_leaf.next_leaf = leaf_c6.next_leaf ∧
      old_leaf.next_leaf = table_c6.pager.num_pages :=
  c6_split_spec table_c6 cursor_c6 7 row_c6 leaf_c6 rfl rfl (by decide) rfl (by decide)
    (by decide) rfl (by decide) (by decide) (by decide) (by decide)
